import Mathlib

/-!
Verification of the investment-metrics engine of the real-estate analyzer.

The financial pipeline (src/app.py `calculate_metrics` / `run_analysis`,
src/api.py `analyze_property`, src/dash_app.py `scenario_outputs` /
`needed_numbers`, src/utils/analysis.py `calculate_roi`) is embedded
shallowly over exact rationals: every Python float expression is mirrored
by the same expression over `ℚ`, `x if c else y` becomes `if c then x
else y`, and the month-by-month amortization loops become structural
recursions on `ℕ`.  The comparable-property filtering of
`scenario_outputs` (src/dash_app.py lines 306-362) is embedded over lists
of rows, with pandas column presence modelled by `Bool` flags and the
`None`-able subject fields by `Option`.
-/

/-- Fixed-rate mortgage payment, src/app.py line 101 (identically at
src/api.py line 81 and src/dash_app.py line 391):
`loan_amount * (monthly_rate * (1 + monthly_rate)**num_payments) /
((1 + monthly_rate)**num_payments - 1) if loan_amount > 0 and
monthly_rate > 0 else 0`. -/
def monthly_payment (loanAmount monthlyRate : ℚ) (numPayments : ℕ) : ℚ :=
  if 0 < loanAmount ∧ 0 < monthlyRate then
    loanAmount * (monthlyRate * (1 + monthlyRate) ^ numPayments) /
      ((1 + monthlyRate) ^ numPayments - 1)
  else 0

/-- Running loan balance of the amortization recurrence, src/app.py
lines 155-160: each month `interest = balance * r; principal = M -
interest; balance -= principal`.  The projection loop at src/app.py
lines 562-568 computes the same recurrence but stops via `if bal < 0:
break` — one step AFTER the balance first goes negative, so this
unclamped recurrence agrees with the source on every month either loop
actually executes (the source never computes a month beyond the first
negative balance). -/
def amortBal (r M P : ℚ) : ℕ → ℚ
  | 0 => P
  | n + 1 => amortBal r M P n - (M - amortBal r M P n * r)

/-- Accumulated principal of the same recurrence, src/app.py lines
155-160: `principal_paid_yr1 += principal` each month (`eq += principal`
in the projection loop at line 565). -/
def amortPrin (r M P : ℚ) : ℕ → ℚ
  | 0 => 0
  | n + 1 => amortPrin r M P n + (M - amortBal r M P n * r)

/-- Principal component of amortization month `i` (0-indexed):
`payment - balance_i * r`, as in src/app.py lines 157-158. -/
def principal_component (r M P : ℚ) (i : ℕ) : ℚ :=
  M - amortBal r M P i * r

/-- The assumptions dictionary consumed by `calculate_metrics`
(src/app.py lines 700-715): financing, expense rates, vacancy mode and
the estimated monthly rent.  `vacancy_months` is `Option` because the
Python value is `None` in percent mode (src/app.py line 363). -/
structure Assumptions where
  down_payment_pct : ℚ
  interest_rate : ℚ
  loan_term : ℕ
  property_tax_rate : ℚ
  insurance_rate : ℚ
  maintenance_rate : ℚ
  capital_reserves_rate : ℚ
  vacancy_rate : ℚ
  vacancy_mode_months : Bool
  vacancy_months : Option ℚ
  closing_costs_pct : ℚ
  estimated_rent : ℚ
deriving DecidableEq

/-- src/app.py line 96: `down_payment = price * (down_payment_pct / 100)`. -/
def down_payment (price : ℚ) (a : Assumptions) : ℚ :=
  price * (a.down_payment_pct / 100)

/-- src/app.py line 97: `loan_amount = price - down_payment`. -/
def loan_amount (price : ℚ) (a : Assumptions) : ℚ :=
  price - down_payment price a

/-- src/app.py line 99: `monthly_rate = interest_rate / 100 / 12`. -/
def monthly_rate (a : Assumptions) : ℚ :=
  a.interest_rate / 100 / 12

/-- src/app.py line 100: `num_payments = loan_term * 12`. -/
def num_payments (a : Assumptions) : ℕ :=
  a.loan_term * 12

/-- src/app.py line 101 applied to the property's loan. -/
def mortgage_payment (price : ℚ) (a : Assumptions) : ℚ :=
  monthly_payment (loan_amount price a) (monthly_rate a) (num_payments a)

/-- src/app.py line 105: `annual_property_tax = price * (property_tax_rate / 100)`. -/
def annual_property_tax (price : ℚ) (a : Assumptions) : ℚ :=
  price * (a.property_tax_rate / 100)

/-- src/app.py line 106: `annual_insurance = price * (insurance_rate / 100)`. -/
def annual_insurance (price : ℚ) (a : Assumptions) : ℚ :=
  price * (a.insurance_rate / 100)

/-- src/app.py line 107: `annual_management = monthly_rent * 0.08 * 12`. -/
def annual_management (rent : ℚ) : ℚ :=
  rent * (8 / 100) * 12

/-- src/app.py line 108: `annual_maintenance = monthly_rent * (maintenance_rate / 100) * 12`. -/
def annual_maintenance (rent : ℚ) (a : Assumptions) : ℚ :=
  rent * (a.maintenance_rate / 100) * 12

/-- src/app.py line 109: `annual_capital_reserves = monthly_rent * (capital_reserves_rate / 100) * 12`. -/
def annual_capital_reserves (rent : ℚ) (a : Assumptions) : ℚ :=
  rent * (a.capital_reserves_rate / 100) * 12

/-- src/app.py lines 110-113: `monthly_rent * vacancy_months` when
`vacancy_mode == 'months' and vacancy_months is not None`, else
`monthly_rent * (vacancy_rate / 100) * 12`. -/
def annual_vacancy (rent : ℚ) (a : Assumptions) : ℚ :=
  match a.vacancy_mode_months, a.vacancy_months with
  | true, some m => rent * m
  | _, _ => rent * (a.vacancy_rate / 100) * 12

/-- src/app.py lines 114-121: sum of the six annual expense items,
taking the rent from the assumptions (line 103). -/
def annual_expenses (price : ℚ) (a : Assumptions) : ℚ :=
  annual_property_tax price a + annual_insurance price a +
  annual_management a.estimated_rent + annual_maintenance a.estimated_rent a +
  annual_capital_reserves a.estimated_rent a + annual_vacancy a.estimated_rent a

/-- src/app.py line 122: `monthly_expenses = annual_expenses / 12`. -/
def monthly_expenses (price : ℚ) (a : Assumptions) : ℚ :=
  annual_expenses price a / 12

/-- src/app.py line 123: `monthly_cash_flow = monthly_rent - monthly_payment - monthly_expenses`. -/
def monthly_cash_flow (price : ℚ) (a : Assumptions) : ℚ :=
  a.estimated_rent - mortgage_payment price a - monthly_expenses price a

/-- src/app.py line 133 (annual operating expenses at lines 125-132 are
the same six items as lines 114-121): `noi = monthly_rent * 12 - annual_operating_expenses`. -/
def noi (price : ℚ) (a : Assumptions) : ℚ :=
  a.estimated_rent * 12 - annual_expenses price a

/-- src/app.py line 134: `cap_rate = (noi / price) * 100 if price > 0 else 0`. -/
def cap_rate (price : ℚ) (a : Assumptions) : ℚ :=
  if 0 < price then noi price a / price * 100 else 0

/-- src/app.py line 136: `total_upfront_cost = down_payment + price * (closing_costs_pct / 100)`. -/
def total_upfront_cost (price : ℚ) (a : Assumptions) : ℚ :=
  down_payment price a + price * (a.closing_costs_pct / 100)

/-- src/app.py line 139: `piti = monthly_payment + (annual_property_tax + annual_insurance) / 12`. -/
def piti (price : ℚ) (a : Assumptions) : ℚ :=
  mortgage_payment price a + (annual_property_tax price a + annual_insurance price a) / 12

/-- src/app.py lines 140-144: `break_even_rent = piti + monthly_management
+ monthly_maintenance + monthly_capital_reserves + monthly_vacancy`, each
monthly figure being the annual one over 12. -/
def break_even_rent (price : ℚ) (a : Assumptions) : ℚ :=
  piti price a + annual_management a.estimated_rent / 12 +
  annual_maintenance a.estimated_rent a / 12 +
  annual_capital_reserves a.estimated_rent a / 12 +
  annual_vacancy a.estimated_rent a / 12

/-- src/app.py lines 151-160: year-1 principal, accumulated by the
12-iteration loop, guarded by `if loan_amount > 0 and monthly_rate > 0`
(otherwise it stays 0). -/
def principal_paid_yr1 (price : ℚ) (a : Assumptions) : ℚ :=
  if 0 < loan_amount price a ∧ 0 < monthly_rate a then
    amortPrin (monthly_rate a) (mortgage_payment price a) (loan_amount price a) 12
  else 0

/-- src/app.py line 161: `appreciation = price * 0.03`. -/
def appreciation (price : ℚ) : ℚ :=
  price * (3 / 100)

/-- src/app.py line 162: `total_roi = ((monthly_cash_flow * 12) +
principal_paid_yr1 + appreciation) / total_upfront_cost * 100 if
total_upfront_cost > 0 else 0`. -/
def total_roi (price : ℚ) (a : Assumptions) : ℚ :=
  if 0 < total_upfront_cost price a then
    (monthly_cash_flow price a * 12 + principal_paid_yr1 price a + appreciation price) /
      total_upfront_cost price a * 100
  else 0

/-- src/app.py line 164: `annual_cash_flow = monthly_cash_flow * 12`. -/
def annual_cash_flow (price : ℚ) (a : Assumptions) : ℚ :=
  monthly_cash_flow price a * 12

/-- Result of the payback computation: a finite number of years or the
`float('inf')` sentinel of src/app.py line 165. -/
inductive Payback where
  | years : ℚ → Payback
  | never : Payback
deriving DecidableEq

/-- src/app.py line 165: `payback_period = total_upfront_cost /
annual_cash_flow if annual_cash_flow > 0 else float('inf')`. -/
def payback_period (price : ℚ) (a : Assumptions) : Payback :=
  if 0 < annual_cash_flow price a then
    Payback.years (total_upfront_cost price a / annual_cash_flow price a)
  else Payback.never

/-- src/utils/analysis.py lines 6-12 (the Python function has a default
argument `annual_appreciation_rate=0.03`, passed explicitly here):
annual appreciation is taken on the down payment and the denominator is
the down payment. -/
def calculate_roi (mcf dp rate : ℚ) : ℚ :=
  (mcf * 12 + dp * rate) / dp * 100

/-- src/api.py line 131: `total_roi = ((monthly_cash_flow * 12) +
appreciation) / total_upfront_cost * 100 if total_upfront_cost > 0 else
0` — api.py adds no principal-paid term. -/
def total_roi_api (price mcf tuc : ℚ) : ℚ :=
  if 0 < tuc then (mcf * 12 + price * (3 / 100)) / tuc * 100 else 0

/-- Vacancy fraction used at src/app.py line 514, where the mode test is
`vacancy_mode == 'months' and vacancy_months` (Python truthiness: `None`
and `0` both fall back to the percent rate). -/
def vacancy_fraction_truthy (a : Assumptions) : ℚ :=
  match a.vacancy_mode_months, a.vacancy_months with
  | true, some m => if m = 0 then a.vacancy_rate / 100 else m / 12
  | _, _ => a.vacancy_rate / 100

/-- src/app.py line 514 (`run_analysis`, with the hardcoded
`buy_threshold_cap_rate = 6` of line 494; `price` stands for the already
parsed integer property price `safe_int(property_data['price'], 0)`):
minimum rent needed to reach the cap-rate threshold, expense rates
included. -/
def needed_rent_for_cap_rate_app (price : ℚ) (a : Assumptions) : ℚ :=
  ((6 / 100) * price +
    (a.property_tax_rate / 100 + a.insurance_rate / 100 + a.maintenance_rate / 100 +
      a.capital_reserves_rate / 100 + vacancy_fraction_truthy a) * price) / 12

/-- src/dash_app.py line 39 (`needed_numbers`, with
`BUY_THRESHOLD_CAP_RATE = 6` of line 24):
`needed_rent_for_cap_rate = ((BUY_THRESHOLD_CAP_RATE/100) * price) / 12`. -/
def needed_rent_for_cap_rate_dash (price : ℚ) : ℚ :=
  ((6 / 100) * price) / 12

/-- Modelled from the spec: the spec's formula for the gap-report rent,
`min_rent_for_cap_rate = (threshold_cap_rate/100 × price +
total_annual_expense_rate_fraction × price) / 12` with threshold 6, the
fraction `f` being the sum of the percentage-based expense-rate
fractions.  Declared only to compare the two call sites against the
spec's words. -/
def spec_min_rent_for_cap_rate (price f : ℚ) : ℚ :=
  ((6 / 100) * price + f * price) / 12

/-- Replace the estimated rent of an assumptions record, keeping every
other field: feeds a candidate rent back into the metric chain. -/
def setRent (a : Assumptions) (r : ℚ) : Assumptions :=
  ⟨a.down_payment_pct, a.interest_rate, a.loan_term, a.property_tax_rate,
   a.insurance_rate, a.maintenance_rate, a.capital_reserves_rate,
   a.vacancy_rate, a.vacancy_mode_months, a.vacancy_months,
   a.closing_costs_pct, r⟩

/-- Replace only the financing assumptions (down payment percentage,
interest rate, loan term), keeping price-independent expense fields and
the rent. -/
def setFinancing (a : Assumptions) (dp ir : ℚ) (lt : ℕ) : Assumptions :=
  ⟨dp, ir, lt, a.property_tax_rate, a.insurance_rate, a.maintenance_rate,
   a.capital_reserves_rate, a.vacancy_rate, a.vacancy_mode_months,
   a.vacancy_months, a.closing_costs_pct, a.estimated_rent⟩

/-- Fraction of the monthly rent consumed by the rent-proportional
expense items of src/app.py lines 107-113: 8% management, maintenance
and capital-reserves rates, and the vacancy fraction (months/12 in
months mode, vacancy_rate/100 otherwise). -/
def rent_fraction (a : Assumptions) : ℚ :=
  8 / 100 + a.maintenance_rate / 100 + a.capital_reserves_rate / 100 +
    (match a.vacancy_mode_months, a.vacancy_months with
     | true, some m => m / 12
     | _, _ => a.vacancy_rate / 100)

/-- One row of the comparable-sales table, restricted to the columns the
filter and the ranking of src/dash_app.py lines 306-350 read. -/
structure CompRow where
  zipc : String
  beds : ℚ
  baths : ℚ
  sqft : ℚ
  price : ℚ
deriving DecidableEq

/-- The comparable-sales dataframe: its rows plus, per column, whether
any of the alias names of src/dash_app.py lines 306-310 resolved (pandas
column presence). -/
structure CompsData where
  hasZip : Bool
  hasBeds : Bool
  hasBaths : Bool
  hasSqft : Bool
  hasPrice : Bool
  rows : List CompRow
deriving DecidableEq

/-- The subject property of src/dash_app.py line 317: every field may be
`None` in the Dash callback.  `zipcode = none` also stands for the empty
string, which is falsy in the `if zip_col and zipcode` guard of
line 320. -/
structure Subject where
  zipcode : Option String
  beds : Option ℚ
  baths : Option ℚ
  sqft : Option ℚ
  price : Option ℚ
deriving DecidableEq

/-- `np.percentile(xs, 1)` with the default linear interpolation
(src/dash_app.py lines 330-331): position `(n-1)/100` in the ascending
sort, interpolating between the two neighbouring order statistics. -/
def percentile1 (l : List ℚ) : ℚ :=
  let sorted := l.mergeSort (fun a b => decide (a ≤ b))
  let n := l.length
  if n = 0 then 0
  else
    let lo : ℕ := (n - 1) / 100
    let frac : ℚ := ((n : ℚ) - 1) / 100 - (lo : ℚ)
    sorted.getD lo 0 + frac * (sorted.getD (min (lo + 1) (n - 1)) 0 - sorted.getD lo 0)

/-- The filter cascade of src/dash_app.py lines 318-333: exact zip match
(skipped when the column or value is absent), beds within ±1, baths
within ±1, sqft within ±20%, then the outlier trim clipping price to
[1st percentile, 800000] and sqft to [1st percentile, 6000] (applied
only to a non-empty survivor set with both columns present). -/
def filteredComps (d : CompsData) (s : Subject) : List CompRow :=
  let l0 := d.rows
  let l1 :=
    if d.hasZip then
      match s.zipcode with
      | some z => l0.filter (fun r => decide (r.zipc = z))
      | none => l0
    else l0
  let l2 :=
    if d.hasBeds then
      match s.beds with
      | some b => l1.filter (fun r => decide (b - 1 ≤ r.beds ∧ r.beds ≤ b + 1))
      | none => l1
    else l1
  let l3 :=
    if d.hasBaths then
      match s.baths with
      | some b => l2.filter (fun r => decide (b - 1 ≤ r.baths ∧ r.baths ≤ b + 1))
      | none => l2
    else l2
  let l4 :=
    if d.hasSqft then
      match s.sqft with
      | some q => l3.filter (fun r => decide (q * (8 / 10) ≤ r.sqft ∧ r.sqft ≤ q * (12 / 10)))
      | none => l3
    else l3
  if d.hasPrice ∧ d.hasSqft ∧ l4 ≠ [] then
    l4.filter (fun r =>
      decide (percentile1 (l4.map CompRow.price) ≤ r.price ∧ r.price ≤ 800000 ∧
        percentile1 (l4.map CompRow.sqft) ≤ r.sqft ∧ r.sqft ≤ 6000))
  else l4

/-- `BedDiff` column of src/dash_app.py lines 335-338: `|beds - subject
beds|` when the column and the subject value exist, else 0. -/
def bedDiff (d : CompsData) (s : Subject) (r : CompRow) : ℚ :=
  if d.hasBeds then
    match s.beds with
    | some b => |r.beds - b|
    | none => 0
  else 0

/-- `BathDiff` column of src/dash_app.py lines 339-342. -/
def bathDiff (d : CompsData) (s : Subject) (r : CompRow) : ℚ :=
  if d.hasBaths then
    match s.baths with
    | some b => |r.baths - b|
    | none => 0
  else 0

/-- `PriceDiff` column of src/dash_app.py lines 344-347. -/
def priceDiff (d : CompsData) (s : Subject) (r : CompRow) : ℚ :=
  if d.hasPrice then
    match s.price with
    | some p => |r.price - p|
    | none => 0
  else 0

/-- Sort order of src/dash_app.py lines 349-350: ascending lexicographic
on `(BedDiff, BathDiff, PriceDiff)`. -/
def compLe (d : CompsData) (s : Subject) (r1 r2 : CompRow) : Bool :=
  decide (bedDiff d s r1 < bedDiff d s r2 ∨
    (bedDiff d s r1 = bedDiff d s r2 ∧
      (bathDiff d s r1 < bathDiff d s r2 ∨
        (bathDiff d s r1 = bathDiff d s r2 ∧ priceDiff d s r1 ≤ priceDiff d s r2))))

/-- The ranked comps list: the filtered rows sorted by the three diff
columns (src/dash_app.py line 350; sorting an empty frame is skipped in
the source, which agrees with sorting the empty list). -/
def rankedComps (d : CompsData) (s : Subject) : List CompRow :=
  (filteredComps d s).mergeSort (compLe d s)

/-- Outcome of the comps step of `scenario_outputs`: a ranked table, the
`'No comparable properties found.'` marker of src/dash_app.py line 362,
or the `'Comps error: ...'` marker of the exception fallback at lines
363-367 (never produced by this total embedding). -/
inductive CompsResult where
  | found : List CompRow → CompsResult
  | noCompsFound : CompsResult
  | compsError : String → CompsResult
deriving DecidableEq

/-- src/dash_app.py lines 360-362: an empty survivor set yields the
explicit no-comps marker, a non-empty one yields the ranked rows. -/
def scenario_comps (d : CompsData) (s : Subject) : CompsResult :=
  if rankedComps d s = [] then CompsResult.noCompsFound
  else CompsResult.found (rankedComps d s)

/-! ### Cash-flow algebra -/

/-- Replacing the rent leaves the mortgage payment unchanged: the
payment reads only price and financing fields. -/
theorem mortgage_payment_setRent (price : ℚ) (a : Assumptions) (r : ℚ) :
    mortgage_payment price (setRent a r) = mortgage_payment price a := rfl

/-- The monthly cash flow of src/app.py line 123 is linear in the rent:
`rent * (1 - rent_fraction) - (payment + (tax + insurance)/12)`. -/
theorem monthly_cash_flow_eq (price : ℚ) (a : Assumptions) :
    monthly_cash_flow price a =
      a.estimated_rent * (1 - rent_fraction a) -
        (mortgage_payment price a +
          (annual_property_tax price a + annual_insurance price a) / 12) := by
  unfold monthly_cash_flow monthly_expenses annual_expenses annual_management
    annual_maintenance annual_capital_reserves annual_vacancy rent_fraction
  cases hm : a.vacancy_mode_months <;> cases hv : a.vacancy_months <;>
    simp only [hm, hv] <;> ring

/-- Cash flow after substituting a candidate rent `r` for the estimate. -/
theorem monthly_cash_flow_setRent (price : ℚ) (a : Assumptions) (r : ℚ) :
    monthly_cash_flow price (setRent a r) =
      r * (1 - rent_fraction a) -
        (mortgage_payment price a +
          (annual_property_tax price a + annual_insurance price a) / 12) :=
  monthly_cash_flow_eq price (setRent a r)

/-- The break-even rent of src/app.py line 144 decomposes as the fixed
monthly cost plus the rent-proportional fraction of the current rent. -/
theorem break_even_rent_eq (price : ℚ) (a : Assumptions) :
    break_even_rent price a =
      mortgage_payment price a +
        (annual_property_tax price a + annual_insurance price a) / 12 +
        a.estimated_rent * rent_fraction a := by
  unfold break_even_rent piti annual_management annual_maintenance
    annual_capital_reserves annual_vacancy rent_fraction
  cases hm : a.vacancy_mode_months <;> cases hv : a.vacancy_months <;>
    simp only [hm, hv] <;> ring

/-- Concrete input refuting the C1 round trip: all-cash purchase of a
$100,000 property, 3% tax, no insurance/maintenance/reserves/vacancy,
rent estimate $1,000. -/
def c1a : Assumptions := ⟨100, 5, 30, 3, 0, 0, 0, 0, false, none, 0, 1000⟩

/-- C1 counterexample: feeding the produced break_even_rent back in as
the monthly rent does not give zero cash flow (it gives $53.60). -/
theorem c1_counterexample :
    monthly_cash_flow 100000 (setRent c1a (break_even_rent 100000 c1a)) ≠ 0 := by
  norm_num [monthly_cash_flow, monthly_expenses, annual_expenses,
    annual_property_tax, annual_insurance, annual_management,
    annual_maintenance, annual_capital_reserves, annual_vacancy,
    mortgage_payment, monthly_payment, loan_amount, down_payment,
    monthly_rate, num_payments, break_even_rent, piti, setRent, c1a]

/-- C1 (amended): feeding `break_even_rent` (computed at the current
rent) back in as the monthly rent yields a cash flow equal to
`rent_fraction a` times the original cash flow — zero exactly when the
original cash flow is already zero or the rent-proportional expense
fraction vanishes, not for every input. -/
theorem break_even_rent_roundtrip_scales (price : ℚ) (a : Assumptions) :
    monthly_cash_flow price (setRent a (break_even_rent price a)) =
      rent_fraction a * monthly_cash_flow price a := by
  rw [monthly_cash_flow_setRent, break_even_rent_eq, monthly_cash_flow_eq]
  ring

/-- C10: with price, financing and expense assumptions fixed, the
monthly cash flow is strictly increasing in the rent whenever the
rent-proportional expense fractions sum to less than 1. -/
theorem cash_flow_strict_mono_in_rent (price : ℚ) (a : Assumptions) (r1 r2 : ℚ)
    (hs : rent_fraction a < 1) (hr : r1 < r2) :
    monthly_cash_flow price (setRent a r1) < monthly_cash_flow price (setRent a r2) := by
  rw [monthly_cash_flow_setRent, monthly_cash_flow_setRent]
  have h1 : 0 < 1 - rent_fraction a := by linarith
  have h2 := mul_lt_mul_of_pos_right hr h1
  linarith

/-- Default-slider assumptions of src/dash_app.py lines 98-115 with a
$1,500 rent estimate. -/
def c10a : Assumptions := ⟨20, 5, 30, 3, 1 / 2, 1, 1, 5, false, none, 3, 1500⟩

/-- C10 witness: at the default assumptions the expense fraction is
0.15 < 1 and raising the rent from $1,000 to $1,100 raises cash flow. -/
theorem cash_flow_strict_mono_in_rent_witness :
    rent_fraction c10a < 1 ∧
      monthly_cash_flow 200000 (setRent c10a 1000) <
        monthly_cash_flow 200000 (setRent c10a 1100) :=
  ⟨by norm_num [rent_fraction, c10a],
   cash_flow_strict_mono_in_rent 200000 c10a 1000 1100
     (by norm_num [rent_fraction, c10a]) (by norm_num)⟩

/-! ### Cap rate -/

/-- C7: the cap rate of src/app.py line 134 is invariant under the
financing assumptions — changing down payment percentage, interest rate
and loan term leaves it unchanged, since NOI excludes debt service. -/
theorem cap_rate_financing_invariant (price : ℚ) (a : Assumptions)
    (dp ir : ℚ) (lt : ℕ) (_hp : 0 < price) :
    cap_rate price (setFinancing a dp ir lt) = cap_rate price a := rfl

/-- C7 witness: a $200,000 property keeps its cap rate when financing
moves from 20% down at 5% over 30 years to 50% down at 9% over 15. -/
theorem cap_rate_financing_invariant_witness :
    (0 : ℚ) < 200000 ∧
      cap_rate 200000 (setFinancing c10a 50 9 15) = cap_rate 200000 c10a :=
  ⟨by norm_num, cap_rate_financing_invariant 200000 c10a 50 9 15 (by norm_num)⟩

/-! ### Payback period -/

/-- C5: src/app.py line 165 returns the infinite sentinel whenever the
monthly (equivalently annual) cash flow is non-positive, and the finite
quotient `total_upfront_cost / annual_cash_flow` whenever the annual
cash flow is positive; the computation is total, so nothing crashes or
propagates NaN. -/
theorem payback_sentinel (price : ℚ) (a : Assumptions) :
    (monthly_cash_flow price a ≤ 0 → payback_period price a = Payback.never) ∧
    (0 < annual_cash_flow price a →
      payback_period price a =
        Payback.years (total_upfront_cost price a / annual_cash_flow price a)) := by
  constructor
  · intro h
    have hacf : annual_cash_flow price a ≤ 0 := by
      unfold annual_cash_flow; linarith
    unfold payback_period
    rw [if_neg (not_lt.2 hacf)]
  · intro h
    unfold payback_period
    rw [if_pos h]

/-- Zero-rent assumptions giving a non-positive cash flow. -/
def c5a : Assumptions := ⟨20, 0, 30, 0, 0, 0, 0, 0, false, none, 0, 0⟩

/-- C5 witness: with zero rent the cash flow is non-positive and the
payback period is the `never` sentinel. -/
theorem payback_sentinel_witness :
    monthly_cash_flow 100000 c5a ≤ 0 ∧ payback_period 100000 c5a = Payback.never := by
  have h : monthly_cash_flow 100000 c5a ≤ 0 := by
    norm_num [monthly_cash_flow, monthly_expenses, annual_expenses,
      annual_property_tax, annual_insurance, annual_management,
      annual_maintenance, annual_capital_reserves, annual_vacancy,
      mortgage_payment, monthly_payment, loan_amount, down_payment,
      monthly_rate, num_payments, c5a]
  exact ⟨h, (payback_sentinel 100000 c5a).1 h⟩

/-! ### Gap reporting -/

/-- C6 (amended): the app.py run_analysis call site (line 514) reports
exactly the spec's `min_rent_for_cap_rate` with the full expense-rate
fraction, while the dash_app needed_numbers call site (line 39) omits
the fraction entirely, reporting `(threshold/100 × price)/12`. -/
theorem needed_rent_cap_rate_formulas :
    (∀ (price : ℚ) (a : Assumptions),
      needed_rent_for_cap_rate_app price a =
        spec_min_rent_for_cap_rate price
          (a.property_tax_rate / 100 + a.insurance_rate / 100 +
            a.maintenance_rate / 100 + a.capital_reserves_rate / 100 +
            vacancy_fraction_truthy a)) ∧
    (∀ price : ℚ,
      needed_rent_for_cap_rate_dash price = spec_min_rent_for_cap_rate price 0) := by
  constructor
  · intro price a; rfl
  · intro price
    unfold needed_rent_for_cap_rate_dash spec_min_rent_for_cap_rate
    ring

/-- Default-slider assumptions of src/dash_app.py (tax 3%, insurance
0.5%, maintenance 1%, reserves 1%, vacancy 5%). -/
def c6a : Assumptions := ⟨20, 5, 30, 3, 1 / 2, 1, 1, 5, false, none, 3, 1500⟩

/-- C6 counterexample: at price $120,000 with the default expense rates
the dash_app gap report gives $600, not the $1,650 the spec formula
requires — the expense-rate fraction is missing at that call site. -/
theorem c6_counterexample :
    needed_rent_for_cap_rate_dash 120000 ≠
      spec_min_rent_for_cap_rate 120000
        (c6a.property_tax_rate / 100 + c6a.insurance_rate / 100 +
          c6a.maintenance_rate / 100 + c6a.capital_reserves_rate / 100 +
          vacancy_fraction_truthy c6a) := by
  norm_num [needed_rent_for_cap_rate_dash, spec_min_rent_for_cap_rate,
    vacancy_fraction_truthy, c6a]


/-! ### Amortization -/

/-- Loop invariant of src/app.py lines 151-160: the accumulated
principal always equals the starting balance minus the running balance,
whatever the payment. -/
theorem amortPrin_eq_principal_sub_balance (r M P : ℚ) :
    ∀ n, amortPrin r M P n = P - amortBal r M P n := by
  intro n
  induction n with
  | zero => simp [amortPrin, amortBal]
  | succ k ih =>
    rw [show amortPrin r M P (k + 1) =
          amortPrin r M P k + (M - amortBal r M P k * r) from rfl,
        show amortBal r M P (k + 1) =
          amortBal r M P k - (M - amortBal r M P k * r) from rfl,
        ih]
    ring

/-- The loop accumulator is the sum of the monthly principal
components. -/
theorem amortPrin_eq_sum (r M P : ℚ) :
    ∀ n, amortPrin r M P n = ∑ i in Finset.range n, principal_component r M P i := by
  intro n
  induction n with
  | zero => simp [amortPrin]
  | succ k ih =>
    rw [Finset.sum_range_succ, ← ih]
    rfl

/-- Closed form of the running balance under the annuity payment for an
`N`-month term: after `n` months the balance is
`P * ((1+r)^N - (1+r)^n) / ((1+r)^N - 1)`. -/
theorem amortBal_closed (P r : ℚ) (N : ℕ) (hr : 0 < r) (hN : 1 ≤ N) :
    ∀ n, amortBal r (P * (r * (1 + r) ^ N) / ((1 + r) ^ N - 1)) P n =
      P * ((1 + r) ^ N - (1 + r) ^ n) / ((1 + r) ^ N - 1) := by
  have hq : (1 : ℚ) < 1 + r := by linarith
  have h1 : (1 : ℚ) < (1 + r) ^ N := one_lt_pow₀ hq (by omega)
  have hD : ((1 + r) ^ N - 1 : ℚ) ≠ 0 := by linarith
  intro n
  induction n with
  | zero =>
    rw [show amortBal r (P * (r * (1 + r) ^ N) / ((1 + r) ^ N - 1)) P 0 = P from rfl]
    field_simp
  | succ k ih =>
    rw [show amortBal r (P * (r * (1 + r) ^ N) / ((1 + r) ^ N - 1)) P (k + 1) =
          amortBal r (P * (r * (1 + r) ^ N) / ((1 + r) ^ N - 1)) P k -
            (P * (r * (1 + r) ^ N) / ((1 + r) ^ N - 1) -
              amortBal r (P * (r * (1 + r) ^ N) / ((1 + r) ^ N - 1)) P k * r) from rfl,
        ih]
    field_simp
    ring

/-- C4 (amended): for every principal `P > 0`, monthly rate `r > 0` and
month count `n` WITHIN the `N`-month term of the annuity payment, the
month-by-month iteration of src/app.py lines 151-160 satisfies:
cumulative principal after `n` months equals `P` minus the remaining
balance, the balance is non-increasing, and it never goes negative.
Past the term the balance does go negative before the projection loop's
line-568 break fires — see the counterexample below. -/
theorem amortization_invariants (P r : ℚ) (N n : ℕ)
    (hP : 0 < P) (hr : 0 < r) (hN : 1 ≤ N) (hn : n ≤ N) :
    amortPrin r (monthly_payment P r N) P n =
        P - amortBal r (monthly_payment P r N) P n ∧
      (∀ k, k < n →
        amortBal r (monthly_payment P r N) P (k + 1) ≤
          amortBal r (monthly_payment P r N) P k) ∧
      (∀ k, k ≤ n → 0 ≤ amortBal r (monthly_payment P r N) P k) := by
  have hM : monthly_payment P r N = P * (r * (1 + r) ^ N) / ((1 + r) ^ N - 1) := by
    unfold monthly_payment
    exact if_pos ⟨hP, hr⟩
  have hq : (1 : ℚ) < 1 + r := by linarith
  have h1 : (1 : ℚ) < (1 + r) ^ N := one_lt_pow₀ hq (by omega)
  have hD : (0 : ℚ) < (1 + r) ^ N - 1 := by linarith
  refine ⟨amortPrin_eq_principal_sub_balance _ _ _ n, ?_, ?_⟩
  · intro k _
    rw [hM, amortBal_closed P r N hr hN, amortBal_closed P r N hr hN]
    have hpow : (1 + r) ^ k ≤ (1 + r) ^ (k + 1) :=
      pow_le_pow_right₀ hq.le (Nat.le_succ k)
    apply div_le_div_of_nonneg_right ?_ hD.le
    exact mul_le_mul_of_nonneg_left (by linarith) hP.le
  · intro k hk
    rw [hM, amortBal_closed P r N hr hN]
    apply div_nonneg _ hD.le
    apply mul_nonneg hP.le
    have hpow := pow_le_pow_right₀ hq.le (le_trans hk hn)
    linarith

/-- C4 counterexample: the projection loop of src/app.py lines 561-569
iterates `range(y*12)` months for up to 20 projection years (slider at
line 380) against a loan term as short as 15 years (slider at line
339), so with price $200,000, 20% down (principal $160,000), 5% annual
rate and a 180-month term the code executes month 181 — and there the
running balance of the iteration is negative (it equals minus one full
payment; the `if bal < 0: break` of line 568 fires only after this
value, and the matching equity overshoot, are recorded). -/
theorem c4_counterexample :
    amortBal (1 / 240) (monthly_payment 160000 (1 / 240) 180) 160000 181 < 0 := by
  have hM : monthly_payment 160000 (1 / 240) 180 =
      160000 * ((1 / 240) * (1 + 1 / 240) ^ 180) / ((1 + 1 / 240) ^ 180 - 1) := by
    unfold monthly_payment
    exact if_pos (by norm_num)
  rw [hM, amortBal_closed 160000 (1 / 240) 180 (by norm_num) (by norm_num) 181]
  have hq : (1 : ℚ) < 1 + 1 / 240 := by norm_num
  have h1 : (1 : ℚ) < (1 + 1 / 240) ^ 180 := one_lt_pow₀ hq (by norm_num)
  have h2 : ((1 + 1 / 240) : ℚ) ^ 180 < (1 + 1 / 240) ^ 181 :=
    pow_lt_pow_right₀ hq (by norm_num)
  apply div_neg_of_neg_of_pos
  · have := mul_neg_of_pos_of_neg (show (0 : ℚ) < 160000 by norm_num)
      (show ((1 + 1 / 240) : ℚ) ^ 180 - (1 + 1 / 240) ^ 181 < 0 by linarith)
    linarith
  · linarith

/-- C4 witness: a 2-month loan of $1,000 at 10% per month fully
illustrates the invariant — cumulative principal after both months
equals the principal minus the final balance. -/
theorem amortization_invariants_witness :
    amortPrin (1 / 10) (monthly_payment 1000 (1 / 10) 2) 1000 2 =
      1000 - amortBal (1 / 10) (monthly_payment 1000 (1 / 10) 2) 1000 2 :=
  (amortization_invariants 1000 (1 / 10) 2 2 (by norm_num) (by norm_num)
    (by norm_num) (by norm_num)).1

/-! ### Monthly payment -/

/-- C2 (amended): the payment is the standard annuity formula for
positive loan and rate, is exactly 0 when the loan or the rate is
non-positive, and evaluates to $1,438.92 (±$0.01) for a $240,000
principal at 6% over 30 years — not the $1,439.32 the spec quotes. -/
theorem monthly_payment_formula :
    (∀ (L r : ℚ) (n : ℕ), 0 < L → 0 < r →
      monthly_payment L r n = L * (r * (1 + r) ^ n) / ((1 + r) ^ n - 1)) ∧
    (∀ (L r : ℚ) (n : ℕ), L ≤ 0 ∨ r ≤ 0 → monthly_payment L r n = 0) ∧
    |monthly_payment 240000 (6 / 100 / 12) (30 * 12) - 143892 / 100| ≤ 1 / 100 := by
  refine ⟨fun L r n hL hr => if_pos ⟨hL, hr⟩, fun L r n h => ?_, ?_⟩
  · apply if_neg
    rintro ⟨h1, h2⟩
    rcases h with h | h <;> linarith
  · unfold monthly_payment
    rw [if_pos (by norm_num)]
    rw [abs_le]
    constructor <;> norm_num

/-- C2 witness: the formula branch at an $80,000 loan, 1% monthly rate,
12 payments, and the zero branch at a non-positive loan. -/
theorem monthly_payment_formula_witness :
    monthly_payment 80000 (1 / 100) 12 =
        80000 * ((1 / 100) * (1 + 1 / 100) ^ 12) / ((1 + 1 / 100) ^ 12 - 1) ∧
      monthly_payment (-5) (1 / 100) 12 = 0 :=
  ⟨monthly_payment_formula.1 80000 (1 / 100) 12 (by norm_num) (by norm_num),
   monthly_payment_formula.2.1 (-5) (1 / 100) 12 (Or.inl (by norm_num))⟩

/-- C2 counterexample: the payment for principal $240,000, 6% annual
rate, 30-year term is not within $0.01 of the spec's $1,439.32 (the
exact value is ≈ $1,438.92). -/
theorem c2_counterexample :
    ¬ |monthly_payment 240000 (6 / 100 / 12) (30 * 12) - 143932 / 100| ≤ 1 / 100 := by
  unfold monthly_payment
  rw [if_pos (by norm_num)]
  rw [abs_le]
  push_neg
  intro h
  norm_num at h ⊢

/-! ### Total ROI -/

/-- C3 (amended): at the src/app.py `calculate_metrics` entry point,
whenever the upfront cost is positive and the amortization loop runs
(positive loan and rate), the first-year total ROI percent is
`(annual_cash_flow + Σ first 12 principal components + price×0.03) /
total_upfront_cost × 100`.  (src/api.py omits the principal term and
src/utils/analysis.py `calculate_roi` uses the down payment instead —
see the counterexample.) -/
theorem total_roi_formula_app (price : ℚ) (a : Assumptions)
    (htuc : 0 < total_upfront_cost price a)
    (hl : 0 < loan_amount price a) (hr : 0 < monthly_rate a) :
    total_roi price a =
      (annual_cash_flow price a +
        (∑ i in Finset.range 12,
          principal_component (monthly_rate a) (mortgage_payment price a)
            (loan_amount price a) i) +
        price * (3 / 100)) / total_upfront_cost price a * 100 := by
  unfold total_roi
  rw [if_pos htuc]
  unfold principal_paid_yr1
  rw [if_pos ⟨hl, hr⟩, amortPrin_eq_sum]
  unfold annual_cash_flow appreciation
  ring

/-- Assumptions of the C3 witness: 20% down, 12% annual rate, 1-year
term, no expense rates, rent $1,000. -/
def c3a : Assumptions := ⟨20, 12, 1, 0, 0, 0, 0, 0, false, none, 0, 1000⟩

/-- C3 witness: the formula instantiated at a $100,000 property with a
positive upfront cost, loan and monthly rate. -/
theorem total_roi_formula_app_witness :
    0 < total_upfront_cost 100000 c3a ∧
      total_roi 100000 c3a =
        (annual_cash_flow 100000 c3a +
          (∑ i in Finset.range 12,
            principal_component (monthly_rate c3a) (mortgage_payment 100000 c3a)
              (loan_amount 100000 c3a) i) +
          100000 * (3 / 100)) / total_upfront_cost 100000 c3a * 100 :=
  ⟨by norm_num [total_upfront_cost, down_payment, c3a],
   total_roi_formula_app 100000 c3a
     (by norm_num [total_upfront_cost, down_payment, c3a])
     (by norm_num [loan_amount, down_payment, c3a])
     (by norm_num [monthly_rate, c3a])⟩

/-- Assumptions of the C3 counterexample: 20% down, 0% rate (so no
principal is paid and the mortgage payment is 0), no expense rates,
no closing costs, rent $1,000. -/
def c3ca : Assumptions := ⟨20, 0, 30, 0, 0, 0, 0, 0, false, none, 0, 1000⟩

/-- C3 counterexample: src/utils/analysis.py `calculate_roi` — one of
the entry points the claim covers — does not compute the claimed
formula: at this input it returns 58.2 while the claimed formula gives
70.2 (it takes 3% of the down payment rather than of the price and
divides by the down payment rather than the total upfront cost). -/
theorem c3_counterexample :
    calculate_roi (monthly_cash_flow 100000 c3ca) (down_payment 100000 c3ca) (3 / 100) ≠
      (annual_cash_flow 100000 c3ca + principal_paid_yr1 100000 c3ca +
        100000 * (3 / 100)) / total_upfront_cost 100000 c3ca * 100 := by
  norm_num [calculate_roi, monthly_cash_flow, monthly_expenses, annual_expenses,
    annual_property_tax, annual_insurance, annual_management, annual_maintenance,
    annual_capital_reserves, annual_vacancy, mortgage_payment, monthly_payment,
    loan_amount, down_payment, monthly_rate, num_payments, annual_cash_flow,
    principal_paid_yr1, total_upfront_cost, c3ca]

/-! ### Comparables ranking -/

/-- The lexicographic comp order is transitive. -/
theorem compLe_trans (d : CompsData) (s : Subject) :
    ∀ a b c, compLe d s a b = true → compLe d s b c = true → compLe d s a c = true := by
  intro a b c hab hbc
  simp only [compLe, decide_eq_true_eq] at hab hbc ⊢
  rcases hab with h1 | ⟨e1, h1'⟩
  · rcases hbc with h2 | ⟨e2, h2'⟩
    · exact Or.inl (lt_trans h1 h2)
    · exact Or.inl (by rw [← e2]; exact h1)
  · rcases hbc with h2 | ⟨e2, h2'⟩
    · exact Or.inl (by rw [e1]; exact h2)
    · refine Or.inr ⟨e1.trans e2, ?_⟩
      rcases h1' with g1 | ⟨f1, g1'⟩
      · rcases h2' with g2 | ⟨f2, g2'⟩
        · exact Or.inl (lt_trans g1 g2)
        · exact Or.inl (by rw [← f2]; exact g1)
      · rcases h2' with g2 | ⟨f2, g2'⟩
        · exact Or.inl (by rw [f1]; exact g2)
        · exact Or.inr ⟨f1.trans f2, le_trans g1' g2'⟩

/-- The lexicographic comp order is total. -/
theorem compLe_total (d : CompsData) (s : Subject) :
    ∀ a b, (compLe d s a b || compLe d s b a) = true := by
  intro a b
  simp only [compLe, Bool.or_eq_true, decide_eq_true_eq]
  rcases lt_trichotomy (bedDiff d s a) (bedDiff d s b) with h | h | h
  · exact Or.inl (Or.inl h)
  · rcases lt_trichotomy (bathDiff d s a) (bathDiff d s b) with g | g | g
    · exact Or.inl (Or.inr ⟨h, Or.inl g⟩)
    · rcases le_total (priceDiff d s a) (priceDiff d s b) with p | p
      · exact Or.inl (Or.inr ⟨h, Or.inr ⟨g, p⟩⟩)
      · exact Or.inr (Or.inr ⟨h.symm, Or.inr ⟨g.symm, p⟩⟩)
    · exact Or.inr (Or.inr ⟨h.symm, Or.inl g⟩)
  · exact Or.inr (Or.inl h)

/-- The ranked comps list is sorted by the lexicographic diff order. -/
theorem rankedComps_pairwise (d : CompsData) (s : Subject) :
    List.Pairwise (fun a b => compLe d s a b = true) (rankedComps d s) :=
  List.sorted_mergeSort (compLe_trans d s) (compLe_total d s) (filteredComps d s)

/-- C8: among the ranked comps, if two entries have equal absolute beds
difference and equal absolute baths difference from the subject, the
one with the strictly smaller absolute price difference appears
strictly earlier in the ranked output. -/
theorem comps_rank_by_price_within_ties (d : CompsData) (s : Subject) (i j : ℕ)
    (hi : i < (rankedComps d s).length) (hj : j < (rankedComps d s).length)
    (hbed : bedDiff d s ((rankedComps d s).get ⟨i, hi⟩) =
      bedDiff d s ((rankedComps d s).get ⟨j, hj⟩))
    (hbath : bathDiff d s ((rankedComps d s).get ⟨i, hi⟩) =
      bathDiff d s ((rankedComps d s).get ⟨j, hj⟩))
    (hprice : priceDiff d s ((rankedComps d s).get ⟨i, hi⟩) <
      priceDiff d s ((rankedComps d s).get ⟨j, hj⟩)) :
    i < j := by
  by_contra hij
  push_neg at hij
  rcases eq_or_lt_of_le hij with he | hlt
  · subst he
    exact absurd hprice (lt_irrefl _)
  · have hp := (List.pairwise_iff_getElem.1 (rankedComps_pairwise d s)) j i hj hi hlt
    simp only [List.get_eq_getElem] at hbed hbath hprice
    simp only [compLe, decide_eq_true_eq] at hp
    rcases hp with h1 | ⟨e1, h2⟩
    · linarith
    · rcases h2 with g1 | ⟨f1, g2⟩
      · linarith
      · linarith

/-- Comp row at the subject's price. -/
def c8rA : CompRow := ⟨"53202", 3, 2, 1500, 100000⟩

/-- Comp row $100,000 above the subject's price. -/
def c8rB : CompRow := ⟨"53202", 3, 2, 1500, 200000⟩

/-- Low-priced comp row trimmed by the 1st-percentile price clip. -/
def c8rC : CompRow := ⟨"53202", 3, 2, 1500, 1000⟩

/-- Dataset for the C8 witness: all columns present, rows out of order. -/
def c8d : CompsData := ⟨true, true, true, true, true, [c8rB, c8rC, c8rA]⟩

/-- Subject for the C8 witness. -/
def c8s : Subject := ⟨none, some 3, some 2, some 1500, some 100000⟩

/-- Concrete evaluation of the C8 pipeline: the low outlier is trimmed
and the remaining rows are ranked by price difference. -/
theorem c8ranked_eval : rankedComps c8d c8s = [c8rA, c8rB] := by
  norm_num [rankedComps, filteredComps, percentile1, compLe, bedDiff, bathDiff,
    priceDiff, c8d, c8s, c8rA, c8rB, c8rC, List.mergeSort, List.merge,
    List.cons_ne_nil]

/-- C8 witness: the ranking theorem applied at the concrete dataset —
row A (price diff 0) must precede row B (price diff $100,000), and the
ranked output is exactly that. -/
theorem comps_rank_by_price_within_ties_witness :
    (0 : ℕ) < 1 ∧ rankedComps c8d c8s = [c8rA, c8rB] := by
  have he : rankedComps c8d c8s = [c8rA, c8rB] := c8ranked_eval
  have h0 : 0 < (rankedComps c8d c8s).length := by rw [he]; norm_num
  have h1 : 1 < (rankedComps c8d c8s).length := by rw [he]; norm_num
  have g0 : (rankedComps c8d c8s).get ⟨0, h0⟩ = c8rA := by
    simp only [he, List.get_eq_getElem, List.getElem_cons_zero]
  have g1 : (rankedComps c8d c8s).get ⟨1, h1⟩ = c8rB := by
    simp only [he, List.get_eq_getElem, List.getElem_cons_succ, List.getElem_cons_zero]
  refine ⟨comps_rank_by_price_within_ties c8d c8s 0 1 h0 h1 ?_ ?_ ?_, he⟩
  · rw [g0, g1]
    norm_num [bedDiff, c8d, c8s, c8rA, c8rB]
  · rw [g0, g1]
    norm_num [bathDiff, c8d, c8s, c8rA, c8rB]
  · rw [g0, g1]
    norm_num [priceDiff, c8d, c8s, c8rA, c8rB]

/-! ### No-comps handling -/

/-- C9 (amended): whenever the filter cascade leaves no rows, the comps
step returns the explicit no-comps marker, which is distinct from the
error marker of the exception fallback; the embedded computation is a
total function, so no exception escapes it.  (A missing column alone
does not produce the marker — its filter is skipped; see the
counterexample.) -/
theorem comps_empty_is_explicit (d : CompsData) (s : Subject)
    (h : filteredComps d s = []) :
    scenario_comps d s = CompsResult.noCompsFound ∧
      ∀ m, scenario_comps d s ≠ CompsResult.compsError m := by
  have hr : rankedComps d s = [] := by
    rw [rankedComps, h]
    exact List.mergeSort_nil
  constructor
  · unfold scenario_comps
    rw [if_pos hr]
  · intro m
    unfold scenario_comps
    rw [if_pos hr]
    simp

/-- Dataset for the C9 witness: a single 10-bedroom row that fails the
beds ±1 filter. -/
def c9d2 : CompsData := ⟨true, true, true, true, true, [⟨"53202", 10, 2, 1500, 100000⟩]⟩

/-- Subject for the C9 witness: 3 beds, so the row above is filtered out. -/
def c9s2 : Subject := ⟨none, some 3, some 2, some 1500, some 100000⟩

/-- C9 witness: no row survives the filters and the result is the
explicit no-comps marker. -/
theorem comps_empty_is_explicit_witness :
    filteredComps c9d2 c9s2 = [] ∧
      scenario_comps c9d2 c9s2 = CompsResult.noCompsFound := by
  have h : filteredComps c9d2 c9s2 = [] := by
    norm_num [filteredComps, c9d2, c9s2]
  exact ⟨h, (comps_empty_is_explicit c9d2 c9s2 h).1⟩

/-- Dataset for the C9 counterexample: the beds column is missing
(`hasBeds = false`) and one row matches every remaining filter. -/
def c9d1 : CompsData := ⟨true, false, true, true, true, [⟨"53202", 3, 2, 1500, 100000⟩]⟩

/-- Subject for the C9 counterexample: all fields present. -/
def c9s1 : Subject := ⟨some "53202", some 3, some 2, some 1500, some 100000⟩

/-- C9 counterexample: with a required column (beds) missing, the comps
step does not return the no-comps marker — the beds filter is skipped
and the surviving row is returned as a comp. -/
theorem c9_counterexample : scenario_comps c9d1 c9s1 ≠ CompsResult.noCompsFound := by
  have h : rankedComps c9d1 c9s1 = [⟨"53202", 3, 2, 1500, 100000⟩] := by
    norm_num [rankedComps, filteredComps, percentile1, c9d1, c9s1, compLe,
      List.mergeSort, List.merge, List.cons_ne_nil]
  unfold scenario_comps
  rw [h]
  simp
